import Mathlib

/-!
Verification of the Customer Value Prediction API (`src/app.py`).

The program is a single FastAPI endpoint `POST /predict_customer_value`:
it remaps a 6-feature vector to the 4-feature order the regression model
expects, runs the model, computes a heuristic purchase probability,
calls an LLM for a narrative JSON object, parses and validates that
reply, and overwrites the three authoritative keys before returning.

Modelling choices:
- Python floats are embedded as exact rationals (`ℚ`); `round(x, 2)` is
  `round2` below (round to nearest; Python's tie-to-even behaviour is
  irrelevant to the claims, none of which hits a tie).
- The regression model loaded from `model.pkl` is opaque external state:
  it is a parameter `modelPredict : List ℚ → ℚ`.
- The LLM round trip is external: its outcome is a parameter
  `llm : LLMResult` (transport failure or raw reply text), and
  `json.loads` on the reply is a parameter `parse : String → ParseOutcome`
  (decode failure, or the decoded JSON object; the Groq call is made with
  `response_format \x7b"type": "json_object"\x7d`).
- Python dicts of parsed JSON are association lists with the keys unique;
  `dict[k] = v` is `setKey`, which replaces in place or appends.
- `HTTPException(status_code, detail)` is `HTTPError`; an unhandled
  Python exception (e.g. `IndexError`) surfaces as FastAPI's 500.
-/

/-- A JSON value, as produced by `json.loads`. -/
inductive JValue where
  | jnull
  | jbool (b : Bool)
  | jnum (q : ℚ)
  | jstr (s : String)
  | jarr (elems : List JValue)
  | jobj (fields : List (String × JValue))

/-- A parsed JSON object: an association list of fields (keys unique). -/
abbrev JsonObj := List (String × JValue)

/-- `dict.get(k)` / key membership on a parsed JSON object. -/
def lookupKey (m : JsonObj) (k : String) : Option JValue :=
  match m with
  | [] => none
  | (k', v) :: rest => if k' = k then some v else lookupKey rest k

/-- `k in dict.keys()`. -/
def hasKey (m : JsonObj) (k : String) : Bool :=
  (lookupKey m k).isSome

/-- `dict[k] = v`: replace the value at `k` in place, or append the pair. -/
def setKey (m : JsonObj) (k : String) (v : JValue) : JsonObj :=
  match m with
  | [] => [(k, v)]
  | (k', v') :: rest => if k' = k then (k, v) :: rest else (k', v') :: setKey rest k v

/-- Python `round(x, 2)` on exact rationals: round `100·x` to the nearest
integer and scale back. -/
def round2 (q : ℚ) : ℚ := (round (q * 100) : ℤ) / 100

/-- `HTTPException(status_code=..., detail=...)`; `detail` is either a plain
string or a small JSON object in `app.py`. -/
structure HTTPError where
  status : Nat
  detail : JValue

/-- Outcome of the external chat-completion call in `call_llm`: either the
transport/API exception text, or the reply's message content. -/
inductive LLMResult where
  | failure (err : String)
  | success (text : String)

/-- Outcome of `json.loads` on the LLM reply: `JSONDecodeError`, or the
decoded JSON object. -/
inductive ParseOutcome where
  | invalid
  | object (o : JsonObj)

/-- One conversational turn of the chat-completion request. -/
structure Message where
  role : String
  content : String

/-- The fixed system instruction `SYSTEM_PROMPT` of `app.py`. -/
def SYSTEM_PROMPT : String :=
  "\nYou are a retail analytics expert.\n\nGiven a customer's predicted future spend and purchase likelihood\nover the next 30 days, generate a structured business interpretation.\n\nRespond with a valid JSON object containing EXACTLY these keys:\n- \"customer_id\"\n- \"predicted_future_spend_30d\"\n- \"customer_segment\" (Low Value, Medium Value, High Value)\n- \"insight\"\n- \"recommended_action\"\n\nDo NOT invent numeric values.\nDo NOT output anything outside the JSON object.\n"

/-- Serialization of one flat JSON field (`json.dumps`; string escaping and
Python float formatting are abstracted). The `llm_input` payload built by the
endpoint is always flat (strings and numbers only), so nested values never
reach this function; they serialize to a placeholder. -/
def dumpFlatValue : JValue → String
  | .jnull => "null"
  | .jbool true => "true"
  | .jbool false => "false"
  | .jnum q => toString q
  | .jstr s => "\"" ++ s ++ "\""
  | .jarr _ => "[...]"
  | .jobj _ => "\x7b...\x7d"

/-- `json.dumps` on the flat `llm_input` object. -/
def jsonDumpsFlat (o : JsonObj) : String :=
  "\x7b" ++ String.intercalate ", "
    (o.map (fun kv => "\"" ++ kv.1 ++ "\": " ++ dumpFlatValue kv.2)) ++ "\x7d"

/-- `build_messages` of `app.py`: the fixed system turn plus the user turn
embedding the serialized payload. -/
def build_messages (payload : JsonObj) : List Message :=
  [⟨"system", SYSTEM_PROMPT⟩,
   ⟨"user", "Here is the customer prediction data:\n" ++ jsonDumpsFlat payload
      ++ "\nReturn only the required JSON."⟩]

/-- `call_llm` of `app.py`: a single synchronous attempt; any exception is
re-raised as a 502 carrying the provider error text. The reply is external,
so it is the `llm` parameter; `messages` is what the code sends. -/
def call_llm (llm : LLMResult) (messages : List Message) : Except HTTPError String :=
  match llm, messages with
  | .failure e, _ => .error ⟨502, .jstr ("LLM call failed: " ++ e)⟩
  | .success text, _ => .ok text

/-- The request schema `CustomerPredictionRequest` of `app.py` (field
constraints `min_length=1` / `min_items=1` are enforced by the framework
before the endpoint runs; see `schemaOk`). -/
structure CustomerPredictionRequest where
  customer_id : String
  features : List ℚ

/-- The detail string of the 400 raised by `run_model`. -/
def expected6Detail : String :=
  "Expected 6 features: total_spend, avg_spend, num_transactions, total_units, unique_products, recency_days"

/-- The 400 error raised by `run_model` when fewer than 6 features arrive. -/
def expected6Error : HTTPError := ⟨400, .jstr expected6Detail⟩

/-- The explicit feature mapping of `run_model` (`app.py` lines 114–119):
`[features[5], features[2], features[0], features[1]]`, i.e.
`[recency_days, frequency, total_spend, avg_spend]`. Only evaluated after
the length-6 guard, so the `getD` defaults are never used. -/
def mapFeatures (features : List ℚ) : List ℚ :=
  [features.getD 5 0, features.getD 2 0, features.getD 0 0, features.getD 1 0]

/-- `run_model` of `app.py`: reject fewer than 6 features with a 400,
otherwise run the loaded regressor on the remapped 4-vector. -/
def run_model (modelPredict : List ℚ → ℚ) (features : List ℚ) : Except HTTPError ℚ :=
  if features.length < 6 then
    .error expected6Error
  else
    .ok (modelPredict (mapFeatures features))

/-- `purchase_probability_30d` of `app.py`: heuristic from
`features[2]` (num_transactions) and `features[5]` (recency_days).
The two list accesses have no length guard of their own: an out-of-range
index is Python's `IndexError`, modelled as `none`. -/
def purchase_probability_30d (features : List ℚ) : Option ℚ :=
  match features.get? 2, features.get? 5 with
  | some num_txns, some recency_days =>
    let freq_score := min (num_txns / 10) 1.0
    let recency_score := max 0.0 (1.0 - recency_days / 45)
    let probability := 0.6 * recency_score + 0.4 * freq_score
    some (round2 (min (max probability 0.05) 0.95))
  | _, _ => none

/-- An unhandled Python exception inside the endpoint surfaces as
FastAPI's 500 Internal Server Error. -/
def indexErrorResponse : HTTPError := ⟨500, .jstr "Internal Server Error"⟩

/-- The five keys the LLM reply must contain (`required_keys` in `app.py`). -/
def requiredKeys : List String :=
  ["customer_id", "predicted_future_spend_30d", "customer_segment",
   "insight", "recommended_action"]

/-- The endpoint `predict_customer_value` of `app.py` (lines 184–232),
parametrised by the opaque regression model (`modelPredict`), the external
LLM outcome (`llm`) and the `json.loads` behaviour on reply text (`parse`). -/
def predict_customer_value (modelPredict : List ℚ → ℚ) (llm : LLMResult)
    (parse : String → ParseOutcome) (data : CustomerPredictionRequest) :
    Except HTTPError JsonObj :=
  match run_model modelPredict data.features with
  | .error e => .error e
  | .ok future_spend =>
    match purchase_probability_30d data.features with
    | none => .error indexErrorResponse
    | some probability =>
      let llm_input : JsonObj :=
        [("customer_id", .jstr data.customer_id.trim),
         ("predicted_future_spend_30d", .jnum (round2 future_spend)),
         ("purchase_probability_30d", .jnum probability)]
      match call_llm llm (build_messages llm_input) with
      | .error e => .error e
      | .ok llm_output =>
        match parse llm_output with
        | .invalid =>
          .error ⟨502, .jobj [("error", .jstr "Invalid JSON from LLM"),
                              ("raw", .jstr llm_output)]⟩
        | .object parsed =>
          if requiredKeys.all (fun k => hasKey parsed k) then
            .ok (setKey (setKey (setKey parsed
                  "customer_id" (.jstr data.customer_id.trim))
                  "predicted_future_spend_30d" (.jnum (round2 future_spend)))
                  "purchase_probability_30d" (.jnum probability))
          else
            .error ⟨502, .jobj [("error", .jstr "Missing keys in LLM response"),
                                ("raw", .jobj parsed)]⟩

/-- The pydantic validation of `CustomerPredictionRequest`
(`customer_id` min length 1, `features` min items 1). -/
def schemaOk (customer_id : String) (features : List ℚ) : Bool :=
  (1 ≤ customer_id.length) && (1 ≤ features.length)

/-- Modelled from FastAPI's documented request-validation behaviour
(framework code, not in `src/`): a request body that fails pydantic
validation of `CustomerPredictionRequest` is rejected with HTTP 422
Unprocessable Entity (a list of validation error messages as detail)
before the endpoint function is ever invoked. -/
def handle_predict_customer_value (modelPredict : List ℚ → ℚ) (llm : LLMResult)
    (parse : String → ParseOutcome) (customer_id : String) (features : List ℚ) :
    Except HTTPError JsonObj :=
  if schemaOk customer_id features then
    predict_customer_value modelPredict llm parse ⟨customer_id, features⟩
  else
    .error ⟨422, .jstr "request body failed validation of CustomerPredictionRequest"⟩

/-- Status code of a pipeline outcome (200 on success). -/
def statusOf : Except HTTPError JsonObj → Nat
  | .ok _ => 200
  | .error e => e.status

/-- A sample well-formed LLM reply object carrying all five required keys,
with the LLM's (wrong) numeric value for the spend field. -/
def sampleParsed : JsonObj :=
  [("customer_id", .jstr "cust-1"),
   ("predicted_future_spend_30d", .jnum 999),
   ("customer_segment", .jstr "High Value"),
   ("insight", .jstr "loyal repeat buyer"),
   ("recommended_action", .jstr "send a coupon")]

/-- A sample LLM reply object lacking the required key `insight`. -/
def sampleParsedNoInsight : JsonObj :=
  [("customer_id", .jstr "cust-1"),
   ("predicted_future_spend_30d", .jnum 999),
   ("customer_segment", .jstr "High Value"),
   ("recommended_action", .jstr "send a coupon")]

/-!
## Helper lemmas
-/

theorem lookupKey_setKey (m : JsonObj) (k k' : String) (v : JValue) :
    lookupKey (setKey m k v) k' = if k = k' then some v else lookupKey m k' := by
  induction m with
  | nil =>
    by_cases h1 : k = k' <;> simp [setKey, lookupKey, h1]
  | cons kv rest ih =>
    obtain ⟨k0, v0⟩ := kv
    by_cases h0 : k0 = k
    · subst h0
      by_cases h1 : k0 = k' <;> simp [setKey, lookupKey, h1]
    · by_cases h1 : k0 = k'
      · subst h1
        have h2 : ¬ (k = k0) := fun h => h0 h.symm
        simp [setKey, lookupKey, h0, h2]
      · by_cases h2 : k = k'
        · subst h2
          simp [setKey, lookupKey, h0, h1, ih]
        · simp [setKey, lookupKey, h0, h1, h2, ih]

theorem round_mono_rat {a b : ℚ} (h : a ≤ b) : round a ≤ round b := by
  rw [round_eq, round_eq]
  exact Int.floor_le_floor (by linarith)

theorem round2_bounds {q : ℚ} (h1 : (0.05 : ℚ) ≤ q) (h2 : q ≤ 0.95) :
    (0.05 : ℚ) ≤ round2 q ∧ round2 q ≤ 0.95 := by
  have e5 : round ((5 : ℚ)) = 5 := by
    rw [show (5 : ℚ) = ((5 : ℤ) : ℚ) by norm_num, round_intCast]
  have e95 : round ((95 : ℚ)) = 95 := by
    rw [show (95 : ℚ) = ((95 : ℤ) : ℚ) by norm_num, round_intCast]
  have hlo : (5 : ℤ) ≤ round (q * 100) := by
    rw [← e5]; exact round_mono_rat (by nlinarith)
  have hhi : round (q * 100) ≤ 95 := by
    rw [← e95]; exact round_mono_rat (by nlinarith)
  have hlo' : (5 : ℚ) ≤ ((round (q * 100) : ℤ) : ℚ) := by exact_mod_cast hlo
  have hhi' : ((round (q * 100) : ℤ) : ℚ) ≤ 95 := by exact_mod_cast hhi
  unfold round2
  constructor <;> [linarith; linarith]

theorem get?_at_len6 {f : List ℚ} (h : 6 ≤ f.length) :
    f.get? 2 = some (f.getD 2 0) ∧ f.get? 5 = some (f.getD 5 0) := by
  have h2 : 2 < f.length := by omega
  have h5 : 5 < f.length := by omega
  constructor
  · rw [List.get?_eq_get h2]
    simp [List.getD_eq_getElem?_getD, List.getElem?_eq_getElem h2]
  · rw [List.get?_eq_get h5]
    simp [List.getD_eq_getElem?_getD, List.getElem?_eq_getElem h5]

theorem heuristic_eq {f : List ℚ} (h : 6 ≤ f.length) :
    purchase_probability_30d f =
      some (round2 (min (max (0.6 * max 0.0 (1.0 - f.getD 5 0 / 45)
        + 0.4 * min (f.getD 2 0 / 10) 1.0) 0.05) 0.95)) := by
  have h2 : 2 < f.length := by omega
  have h5 : 5 < f.length := by omega
  unfold purchase_probability_30d
  rw [List.get?_eq_get h2, List.get?_eq_get h5]
  simp [List.getD_eq_getElem?_getD, List.getElem?_eq_getElem, h2, h5]

theorem heuristic_isSome_iff (f : List ℚ) :
    (purchase_probability_30d f).isSome ↔ 6 ≤ f.length := by
  constructor
  · intro hs
    by_contra hlt
    push_neg at hlt
    have h5 : f.get? 5 = none := List.get?_eq_none.mpr (by omega)
    unfold purchase_probability_30d at hs
    cases hx : f.get? 2 <;> rw [hx, h5] at hs <;> simp at hs
  · intro h
    rw [heuristic_eq h]
    rfl

theorem predict_of_short (modelPredict : List ℚ → ℚ) (llm : LLMResult)
    (parse : String → ParseOutcome) (data : CustomerPredictionRequest)
    (h : data.features.length < 6) :
    predict_customer_value modelPredict llm parse data = .error expected6Error := by
  simp [predict_customer_value, run_model, h]

theorem predict_success (modelPredict : List ℚ → ℚ) (parse : String → ParseOutcome)
    (data : CustomerPredictionRequest) (t : String) (parsed : JsonObj) (p : ℚ)
    (h6 : 6 ≤ data.features.length)
    (hp : purchase_probability_30d data.features = some p)
    (hparse : parse t = .object parsed)
    (hkeys : requiredKeys.all (fun k => hasKey parsed k) = true) :
    predict_customer_value modelPredict (.success t) parse data =
      .ok (setKey (setKey (setKey parsed
            "customer_id" (.jstr data.customer_id.trim))
            "predicted_future_spend_30d"
              (.jnum (round2 (modelPredict (mapFeatures data.features)))))
            "purchase_probability_30d" (.jnum p)) := by
  have hlen : ¬ (data.features.length < 6) := by omega
  simp [predict_customer_value, run_model, hlen, hp, call_llm, hparse, hkeys]

/-!
## Claims
-/

/-- C1: for every request whose LLM reply parses as a JSON object with all
five required keys, the final response's `customer_id` is the request's
`customer_id` with surrounding whitespace stripped, its
`predicted_future_spend_30d` is the locally computed model output rounded to
2 decimals, and its `purchase_probability_30d` is the locally computed
heuristic value — for every `parsed` object, hence regardless of what the
LLM supplied for those three keys. -/
theorem c1_authoritative_fields (modelPredict : List ℚ → ℚ)
    (parse : String → ParseOutcome) (data : CustomerPredictionRequest)
    (t : String) (parsed : JsonObj)
    (h6 : 6 ≤ data.features.length)
    (hparse : parse t = .object parsed)
    (hkeys : requiredKeys.all (fun k => hasKey parsed k) = true) :
    ∃ final, predict_customer_value modelPredict (.success t) parse data = .ok final ∧
      lookupKey final "customer_id" = some (.jstr data.customer_id.trim) ∧
      lookupKey final "predicted_future_spend_30d" =
        some (.jnum (round2 (modelPredict (mapFeatures data.features)))) ∧
      ∃ p, purchase_probability_30d data.features = some p ∧
        lookupKey final "purchase_probability_30d" = some (.jnum p) := by
  obtain ⟨p, hp⟩ :=
    Option.isSome_iff_exists.mp ((heuristic_isSome_iff data.features).mpr h6)
  refine ⟨_, predict_success modelPredict parse data t parsed p h6 hp hparse hkeys,
    ?_, ?_, p, hp, ?_⟩
  · rw [lookupKey_setKey, if_neg (by decide), lookupKey_setKey, if_neg (by decide),
      lookupKey_setKey, if_pos rfl]
  · rw [lookupKey_setKey, if_neg (by decide), lookupKey_setKey, if_pos rfl]
  · rw [lookupKey_setKey, if_pos rfl]

/-- Witness for C1 at a concrete request, model and LLM reply. -/
theorem c1_authoritative_fields_witness :
    ∃ final, predict_customer_value (fun _ => 120) (.success "reply")
        (fun _ => ParseOutcome.object sampleParsed)
        ⟨" cust-1 ", [100.0, 20.0, 5, 50, 10, 30]⟩ = .ok final ∧
      lookupKey final "customer_id" = some (.jstr " cust-1 ".trim) ∧
      lookupKey final "predicted_future_spend_30d" =
        some (.jnum (round2 120)) ∧
      ∃ p, purchase_probability_30d [100.0, 20.0, 5, 50, 10, 30] = some p ∧
        lookupKey final "purchase_probability_30d" = some (.jnum p) :=
  c1_authoritative_fields (fun _ => 120) (fun _ => ParseOutcome.object sampleParsed)
    ⟨" cust-1 ", [100.0, 20.0, 5, 50, 10, 30]⟩ "reply" sampleParsed
    (by norm_num) rfl (by decide)

/-- C2: for every feature list of length ≥ 6, the vector passed to the
regression model is exactly `[f[5], f[2], f[0], f[1]]` (the fixed index
table `{5,2,0,1}`), and the elements at indices 3 and 4 and any elements
beyond index 5 have no effect on it: any list of length ≥ 6 agreeing with
`f` at positions 0, 1, 2 and 5 maps to the same vector. -/
theorem c2_feature_mapping (f : List ℚ) (h6 : 6 ≤ f.length) :
    mapFeatures f = [f.get ⟨5, by omega⟩, f.get ⟨2, by omega⟩,
      f.get ⟨0, by omega⟩, f.get ⟨1, by omega⟩] ∧
    ∀ g : List ℚ, 6 ≤ g.length →
      g.getD 5 0 = f.getD 5 0 → g.getD 2 0 = f.getD 2 0 →
      g.getD 0 0 = f.getD 0 0 → g.getD 1 0 = f.getD 1 0 →
      mapFeatures g = mapFeatures f := by
  constructor
  · have h5 : 5 < f.length := by omega
    have h2 : 2 < f.length := by omega
    have h0 : 0 < f.length := by omega
    have h1 : 1 < f.length := by omega
    simp [mapFeatures, List.getD_eq_getElem?_getD, List.getElem?_eq_getElem,
      h5, h2, h0, h1]
  · intro g hg e5 e2 e0 e1
    simp only [mapFeatures, e5, e2, e0, e1]

/-- Witness for C2 at a concrete feature list. -/
theorem c2_feature_mapping_witness :
    mapFeatures [1, 2, 3, 4, 5, 6, 7] = [6, 3, 1, 2] :=
  ((c2_feature_mapping [1, 2, 3, 4, 5, 6, 7] (by norm_num)).1).trans (by norm_num)

/-- C3: for every request whose feature list has fewer than 6 elements, the
endpoint returns status 400 with the expected-6-feature-schema message;
the result is this same error for every regression model `modelPredict`,
every LLM outcome `llm` and every `json.loads` behaviour `parse`, i.e. it
does not depend on the model or the LLM — neither is ever consulted. -/
theorem c3_short_features_400 (data : CustomerPredictionRequest)
    (hlen : data.features.length < 6) :
    ∀ (modelPredict : List ℚ → ℚ) (llm : LLMResult) (parse : String → ParseOutcome),
      predict_customer_value modelPredict llm parse data =
        .error ⟨400, .jstr expected6Detail⟩ :=
  fun modelPredict llm parse => predict_of_short modelPredict llm parse data hlen

/-- Witness for C3 at a concrete 3-feature request with concrete oracles. -/
theorem c3_short_features_400_witness :
    predict_customer_value (fun _ => 0) (.failure "down") (fun _ => .invalid)
      ⟨"cust-1", [1, 2, 3]⟩ = .error ⟨400, .jstr expected6Detail⟩ :=
  c3_short_features_400 ⟨"cust-1", [1, 2, 3]⟩ (by norm_num)
    (fun _ => 0) (.failure "down") (fun _ => .invalid)

/-- C4: for any feature list of length ≥ 6 with `num_transactions`
(`features[2]`) ≥ 0, the heuristic never fails and returns exactly
`round(clamp(0.6·max(0, 1 − recency_days/45) + 0.4·min(num_transactions/10, 1),
0.05, 0.95), 2)`, a value in the closed interval `[0.05, 0.95]`.
(Finiteness is automatic over exact rationals.) -/
theorem c4_heuristic_bounded (f : List ℚ) (h6 : 6 ≤ f.length)
    (_ht : 0 ≤ f.getD 2 0) :
    purchase_probability_30d f =
      some (round2 (min (max (0.6 * max 0.0 (1.0 - f.getD 5 0 / 45)
        + 0.4 * min (f.getD 2 0 / 10) 1.0) 0.05) 0.95)) ∧
    ∀ p, purchase_probability_30d f = some p → 0.05 ≤ p ∧ p ≤ 0.95 := by
  refine ⟨heuristic_eq h6, ?_⟩
  intro p hp
  rw [heuristic_eq h6, Option.some_inj] at hp
  subst hp
  exact round2_bounds (le_min (le_max_right _ _) (by norm_num)) (min_le_right _ _)

/-- Witness for C4 at a concrete feature list. -/
theorem c4_heuristic_bounded_witness :
    purchase_probability_30d [100, 20, 5, 50, 10, 30] =
      some (round2 (min (max (0.6 * max 0.0 (1.0 - (30 : ℚ) / 45)
        + 0.4 * min ((5 : ℚ) / 10) 1.0) 0.05) 0.95)) ∧
    ∀ p, purchase_probability_30d [100, 20, 5, 50, 10, 30] = some p →
      0.05 ≤ p ∧ p ≤ 0.95 :=
  c4_heuristic_bounded [100, 20, 5, 50, 10, 30] (by norm_num) (by norm_num [List.getD])

/-- C5: if the LLM reply parses as a JSON object but lacks any of the five
required keys, the endpoint fails with status 502 and the parsed object
embedded in the error detail; no success response is returned. -/
theorem c5_missing_key_502 (modelPredict : List ℚ → ℚ)
    (parse : String → ParseOutcome) (data : CustomerPredictionRequest)
    (t : String) (parsed : JsonObj)
    (h6 : 6 ≤ data.features.length)
    (hparse : parse t = .object parsed)
    (hmiss : ∃ k ∈ requiredKeys, hasKey parsed k = false) :
    predict_customer_value modelPredict (.success t) parse data =
      .error ⟨502, .jobj [("error", .jstr "Missing keys in LLM response"),
                          ("raw", .jobj parsed)]⟩ := by
  have hlen : ¬ (data.features.length < 6) := by omega
  obtain ⟨p, hp⟩ :=
    Option.isSome_iff_exists.mp ((heuristic_isSome_iff data.features).mpr h6)
  have hall : requiredKeys.all (fun k => hasKey parsed k) = false := by
    obtain ⟨k, hk, hfalse⟩ := hmiss
    rw [List.all_eq_false]
    exact ⟨k, hk, by simp [hfalse]⟩
  simp [predict_customer_value, run_model, hlen, hp, call_llm, hparse, hall]

/-- Witness for C5 at a concrete reply missing `insight`. -/
theorem c5_missing_key_502_witness :
    predict_customer_value (fun _ => 120) (.success "reply")
      (fun _ => ParseOutcome.object sampleParsedNoInsight)
      ⟨"cust-1", [100.0, 20.0, 5, 50, 10, 30]⟩ =
      .error ⟨502, .jobj [("error", .jstr "Missing keys in LLM response"),
                          ("raw", .jobj sampleParsedNoInsight)]⟩ :=
  c5_missing_key_502 (fun _ => 120) (fun _ => ParseOutcome.object sampleParsedNoInsight)
    ⟨"cust-1", [100.0, 20.0, 5, 50, 10, 30]⟩ "reply" sampleParsedNoInsight
    (by norm_num) rfl ⟨"insight", by decide, by decide⟩

/-- C6: if the LLM reply does not parse as JSON, the endpoint fails with
status 502 and the raw unparsed LLM text embedded in the error detail;
no success response is returned. -/
theorem c6_invalid_json_502 (modelPredict : List ℚ → ℚ)
    (parse : String → ParseOutcome) (data : CustomerPredictionRequest)
    (t : String)
    (h6 : 6 ≤ data.features.length)
    (hparse : parse t = .invalid) :
    predict_customer_value modelPredict (.success t) parse data =
      .error ⟨502, .jobj [("error", .jstr "Invalid JSON from LLM"),
                          ("raw", .jstr t)]⟩ := by
  have hlen : ¬ (data.features.length < 6) := by omega
  obtain ⟨p, hp⟩ :=
    Option.isSome_iff_exists.mp ((heuristic_isSome_iff data.features).mpr h6)
  simp [predict_customer_value, run_model, hlen, hp, call_llm, hparse]

/-- Witness for C6 at a concrete non-JSON reply. -/
theorem c6_invalid_json_502_witness :
    predict_customer_value (fun _ => 120) (.success "plain prose, not JSON")
      (fun _ => ParseOutcome.invalid)
      ⟨"cust-1", [100.0, 20.0, 5, 50, 10, 30]⟩ =
      .error ⟨502, .jobj [("error", .jstr "Invalid JSON from LLM"),
                          ("raw", .jstr "plain prose, not JSON")]⟩ :=
  c6_invalid_json_502 (fun _ => 120) (fun _ => ParseOutcome.invalid)
    ⟨"cust-1", [100.0, 20.0, 5, 50, 10, 30]⟩ "plain prose, not JSON"
    (by norm_num) rfl

/-- C7: reconciliation modifies no key other than `customer_id`,
`predicted_future_spend_30d` and `purchase_probability_30d`: every other
key of the final response — in particular the narrative keys
`customer_segment`, `insight` and `recommended_action` — holds exactly the
value the parsed LLM object supplied for it. -/
theorem c7_narrative_passthrough (modelPredict : List ℚ → ℚ)
    (parse : String → ParseOutcome) (data : CustomerPredictionRequest)
    (t : String) (parsed : JsonObj) (k : String)
    (h6 : 6 ≤ data.features.length)
    (hparse : parse t = .object parsed)
    (hkeys : requiredKeys.all (fun k => hasKey parsed k) = true)
    (hk1 : k ≠ "customer_id") (hk2 : k ≠ "predicted_future_spend_30d")
    (hk3 : k ≠ "purchase_probability_30d") :
    ∃ final, predict_customer_value modelPredict (.success t) parse data = .ok final ∧
      lookupKey final k = lookupKey parsed k := by
  obtain ⟨p, hp⟩ :=
    Option.isSome_iff_exists.mp ((heuristic_isSome_iff data.features).mpr h6)
  refine ⟨_, predict_success modelPredict parse data t parsed p h6 hp hparse hkeys, ?_⟩
  rw [lookupKey_setKey, if_neg (fun h => hk3 h.symm),
    lookupKey_setKey, if_neg (fun h => hk2 h.symm),
    lookupKey_setKey, if_neg (fun h => hk1 h.symm)]

/-- Witness for C7: the `insight` key of the final response is the LLM's. -/
theorem c7_narrative_passthrough_witness :
    ∃ final, predict_customer_value (fun _ => 120) (.success "reply")
        (fun _ => ParseOutcome.object sampleParsed)
        ⟨"cust-1", [100.0, 20.0, 5, 50, 10, 30]⟩ = .ok final ∧
      lookupKey final "insight" = lookupKey sampleParsed "insight" :=
  c7_narrative_passthrough (fun _ => 120) (fun _ => ParseOutcome.object sampleParsed)
    ⟨"cust-1", [100.0, 20.0, 5, 50, 10, 30]⟩ "reply" sampleParsed "insight"
    (by norm_num) rfl (by decide) (by decide) (by decide) (by decide)

/-- C8: for the input features `[100.0, 20.0, 5, 50, 10, 30]`, the mapped
model vector is exactly `[30, 5, 100.0, 20.0]` and the heuristic returns
exactly `0.4`. -/
theorem c8_concrete_example :
    mapFeatures [100.0, 20.0, 5, 50, 10, 30] = [30, 5, 100.0, 20.0] ∧
    purchase_probability_30d [100.0, 20.0, 5, 50, 10, 30] = some 0.4 := by
  constructor
  · norm_num [mapFeatures]
  · norm_num [purchase_probability_30d, round2, round_eq]

/-- C9 counterexample: a request body with an empty `customer_id` (a schema
violation) is rejected by FastAPI's pydantic validation with status 422,
not 400 as claimed; the claim's status code is refuted at this input. -/
theorem c9_schema_violation_counterexample :
    statusOf (handle_predict_customer_value (fun _ => 0) (.failure "down")
      (fun _ => .invalid) "" [1, 2, 3, 4, 5, 6]) = 422 ∧ (422 : Nat) ≠ 400 := by
  constructor
  · rfl
  · decide

/-- C9 amended: for every malformed request body (empty `customer_id` or
empty `features`), the request is rejected before the endpoint function
runs — for every model and LLM outcome — with status 422 (FastAPI's
validation error), which is not the 400 of the fewer-than-6-features
case. -/
theorem c9_schema_violation_422 (customer_id : String) (features : List ℚ)
    (h : customer_id.length = 0 ∨ features.length = 0) :
    ∀ (modelPredict : List ℚ → ℚ) (llm : LLMResult) (parse : String → ParseOutcome),
      statusOf (handle_predict_customer_value modelPredict llm parse
        customer_id features) = 422 := by
  intro modelPredict llm parse
  have hbad : schemaOk customer_id features = false := by
    rcases h with h | h <;> simp [schemaOk, h]
  simp [handle_predict_customer_value, hbad, statusOf]

/-- Witness for the amended C9 at a concrete empty-`customer_id` body. -/
theorem c9_schema_violation_422_witness :
    statusOf (handle_predict_customer_value (fun _ => 0) (.failure "down")
      (fun _ => .invalid) "" [1, 2, 3, 4, 5, 6]) = 422 :=
  c9_schema_violation_422 "" [1, 2, 3, 4, 5, 6] (Or.inl rfl)
    (fun _ => 0) (.failure "down") (fun _ => .invalid)

/-- C10: `purchase_probability_30d` indexes `features[2]` and `features[5]`
with no length guard of its own, so it succeeds exactly on lists of length
≥ 6 (first conjunct: it is partial on shorter lists, and both accesses are
in bounds — the out-of-range branch unreachable — under the precondition
length ≥ 6). Second conjunct: the endpoint establishes that precondition,
because `run_model`'s length check runs first: every request either has
≥ 6 features, or the endpoint has already returned `run_model`'s 400 —
whatever the model and LLM oracles — and the heuristic is never reached. -/
theorem c10_heuristic_guarded :
    (∀ f : List ℚ, (purchase_probability_30d f).isSome ↔ 6 ≤ f.length) ∧
    (∀ (modelPredict : List ℚ → ℚ) (llm : LLMResult)
       (parse : String → ParseOutcome) (data : CustomerPredictionRequest),
      6 ≤ data.features.length ∨
        predict_customer_value modelPredict llm parse data =
          .error ⟨400, .jstr expected6Detail⟩) := by
  refine ⟨heuristic_isSome_iff, ?_⟩
  intro modelPredict llm parse data
  by_cases h : 6 ≤ data.features.length
  · exact Or.inl h
  · exact Or.inr (predict_of_short modelPredict llm parse data (by omega))
